import Mathlib

/-!
Verification of the ClaraverseVoiceLAB chunked media-conversion pipeline and
model-lifecycle manager (src/backend/main.py, src/app.py), shallowly embedded
in Lean 4.  Audio samples are modelled as exact rationals (`ℚ`); external
libraries (librosa decode, the ChatterBox voice-conversion model, moviepy)
are modelled as opaque parameters where the code treats them as black boxes.
-/

namespace ClaraVoice

/-! ## Chunk Splitter (`split_audio_into_chunks`, backend/main.py 339-357, app.py 156-174)

The python body is
```
audio, sr = librosa.load(audio_path, sr=sample_rate)
chunk_size = chunk_duration_seconds * sample_rate
chunks = []
for i in range(0, len(audio), chunk_size):
    chunks.append(audio[i:i + chunk_size])
return chunks, sr
```
with `except Exception: return [], sample_rate`.
-/

/-- The windowing loop `for i in range(0, len(audio), chunk_size):
chunks.append(audio[i:i+chunk_size])`.  For a positive step the loop takes the
first `chunk_size` samples and continues on the rest; for step 0 python's
`range` raises `ValueError` (the surrounding `except` turns that into `[]`,
and the function is never called with a zero chunk size). -/
def splitSamples : Nat → List ℚ → List (List ℚ)
  | _, [] => []
  | 0, _ :: _ => []
  | c + 1, x :: xs => (x :: xs.take c) :: splitSamples (c + 1) (xs.drop c)
termination_by _ l => l.length
decreasing_by simp [List.length_drop]; omega

/-- `split_audio_into_chunks(audio_path, chunk_duration_seconds, sample_rate)`.
The `librosa.load` decode is opaque: `decoded = some audio` models a
successful decode at the requested rate, `none` models the decode raising.
In the `except` branch the code prints the error and returns
`([], sample_rate)` — it raises nothing. -/
def split_audio_into_chunks (decoded : Option (List ℚ))
    (chunk_duration_seconds sample_rate : Nat) : List (List ℚ) × Nat :=
  match decoded with
  | some audio => (splitSamples (chunk_duration_seconds * sample_rate) audio, sample_rate)
  | none => ([], sample_rate)

/-! ## Audio Effects Post-Processor (`apply_audio_effects`, backend/main.py 359-379)

```
try:
    if pitch_shift != 0.0:
        audio_array = librosa.effects.pitch_shift(audio_array, sr=sample_rate, n_steps=pitch_shift)
    if speed_factor != 1.0:
        audio_array = librosa.effects.time_stretch(audio_array, rate=speed_factor)
    if volume_factor != 1.0:
        audio_array = audio_array * volume_factor
        audio_array = np.clip(audio_array, -1.0, 1.0)
    return audio_array
except Exception as e:
    return audio_array
```
The two librosa transforms are opaque capabilities that may raise (e.g.
`time_stretch` raises `ParameterError` for a non-positive rate); they are
passed in as parameters `pitchShiftFn sr n_steps samples` and
`timeStretchFn rate samples` returning `none` when that invocation raises.
The `except` branch returns the variable `audio_array` as last successfully
assigned, i.e. the signal processed so far, without the volume scale or
clip; the numpy multiply and `np.clip` themselves do not raise. -/

/-- `np.clip(x, lo, hi)` on a scalar: `min(max(x, lo), hi)`. -/
def npClip (lo hi x : ℚ) : ℚ := min (max x lo) hi

/-- `apply_audio_effects(audio_array, sample_rate, pitch_shift, speed_factor,
volume_factor)` with the two librosa stage functions opaque and fallible.
Each stage is guarded by its no-op test exactly as in the source; a stage
that raises makes the function return the array bound at that moment
(the input if the pitch stage raised, the post-pitch array if the stretch
stage raised) — the source's `except` branch — so a raised stage bypasses
the volume scale and the clip. -/
def apply_audio_effects (pitchShiftFn : Nat → ℚ → List ℚ → Option (List ℚ))
    (timeStretchFn : ℚ → List ℚ → Option (List ℚ))
    (audio_array : List ℚ) (sample_rate : Nat)
    (pitch_shift speed_factor volume_factor : ℚ) : List ℚ :=
  match (if pitch_shift ≠ 0 then pitchShiftFn sample_rate pitch_shift audio_array
         else some audio_array) with
  | none => audio_array
  | some a1 =>
    match (if speed_factor ≠ 1 then timeStretchFn speed_factor a1 else some a1) with
    | none => a1
    | some a2 =>
      if volume_factor ≠ 1 then (a2.map (fun s => s * volume_factor)).map (npClip (-1) 1)
      else a2

/-! ## Conversion Worker + Chunk Combiner (`process_audio_chunks`, backend/main.py 381-422)

Per chunk, the try-block saves the chunk, runs `vc_model.generate`, applies
effects and appends; any exception in it is caught and
`np.zeros_like(chunk)` is appended instead.  After the loop:
`if converted_chunks: return concatenate(converted_chunks) else: return None`.
The voice-conversion model invocation is opaque; one invocation per chunk
index, `vcGenerate i chunk = none` modelling that invocation raising. -/

/-- Outcome of the loop body for chunk `i`: on success the model output with
effects applied, on failure silence of the chunk's exact length
(`np.zeros_like(chunk)`).  Both carry the caller's unchanged `sample_rate`. -/
def convert_chunk (vcGenerate : Nat → List ℚ → Option (List ℚ))
    (pitchShiftFn : Nat → ℚ → List ℚ → Option (List ℚ))
    (timeStretchFn : ℚ → List ℚ → Option (List ℚ))
    (sample_rate : Nat) (pitch_shift speed_factor volume_factor : ℚ)
    (i : Nat) (chunk : List ℚ) : List ℚ × Nat :=
  match vcGenerate i chunk with
  | some out =>
      (apply_audio_effects pitchShiftFn timeStretchFn out sample_rate
        pitch_shift speed_factor volume_factor, sample_rate)
  | none => (List.replicate chunk.length 0, sample_rate)

/-- `process_audio_chunks(vc_model, chunks, sample_rate, ...)`: run every
chunk through `convert_chunk` in order and concatenate; an empty outcome
list yields `None`. -/
def process_audio_chunks (vcGenerate : Nat → List ℚ → Option (List ℚ))
    (pitchShiftFn : Nat → ℚ → List ℚ → Option (List ℚ))
    (timeStretchFn : ℚ → List ℚ → Option (List ℚ))
    (chunks : List (List ℚ)) (sample_rate : Nat)
    (pitch_shift speed_factor volume_factor : ℚ) : Option (List ℚ) :=
  let converted_chunks := chunks.mapIdx (fun i chunk =>
    (convert_chunk vcGenerate pitchShiftFn timeStretchFn sample_rate
      pitch_shift speed_factor volume_factor i chunk).1)
  if converted_chunks.isEmpty then none else some converted_chunks.flatten

/-! ## Video Audio Reconciler (`video_voice_conversion`, backend/main.py 1345-1359)

```
if converted_audio_clip.duration > video_duration:
    converted_audio_clip = converted_audio_clip.subclipped(0, video_duration)
elif converted_audio_clip.duration < video_duration:
    silence_duration = video_duration - converted_audio_clip.duration
    silence_clip = AudioClip(lambda t: [0, 0], duration=silence_duration)
    converted_audio_clip = concatenate_audioclips([converted_audio_clip, silence_clip])
```
Moviepy clips are modelled by their duration. -/

/-- A moviepy audio clip, abstracted to its duration. -/
structure AudioClip where
  duration : ℚ
deriving DecidableEq

/-- `clip.subclipped(t0, t1)` keeps the interval `[t0, t1]`. -/
def AudioClip.subclipped (_ : AudioClip) (t0 t1 : ℚ) : AudioClip := ⟨t1 - t0⟩

/-- `AudioClip(lambda t: [0, 0], duration=d)`: silence of duration `d`. -/
def silenceClip (d : ℚ) : AudioClip := ⟨d⟩

/-- `concatenate_audioclips(clips)`: durations add. -/
def concatenate_audioclips (clips : List AudioClip) : AudioClip :=
  ⟨(clips.map AudioClip.duration).sum⟩

/-- The duration-reconciliation step of `video_voice_conversion`. -/
def reconcile_audio_to_video (video_duration : ℚ) (converted_audio_clip : AudioClip) :
    AudioClip :=
  if converted_audio_clip.duration > video_duration then
    converted_audio_clip.subclipped 0 video_duration
  else if converted_audio_clip.duration < video_duration then
    concatenate_audioclips
      [converted_audio_clip, silenceClip (video_duration - converted_audio_clip.duration)]
  else converted_audio_clip

/-- The chunking step of the video endpoint (backend/main.py 1301-1323):
`split_audio_into_chunks(audio_path, chunk_duration)` is called with the
default 16000 Hz rate, and an empty chunk list is turned into
`HTTPException(500, "Failed to split audio into chunks")`. -/
def video_conversion_split_step (decoded : Option (List ℚ)) (chunk_duration : Nat) :
    Except (Nat × String) (List (List ℚ) × Nat) :=
  let r := split_audio_into_chunks decoded chunk_duration 16000
  if r.1.isEmpty then Except.error (500, "Failed to split audio into chunks")
  else Except.ok r

/-! ## Upload validation (`get_audio_duration_seconds` 197-204,
`validate_audio_file` 206-225, `add_voice_sample` 1452-1509) -/

/-- An uploaded file as the validator observes it: existence on disk, byte
size, and the opaque `librosa.load(file_path, sr=None)` result — `some
(samples, sr)` on success, `none` when the decode raises. -/
structure UploadedAudioFile where
  existsOnDisk : Bool
  fileSize : Nat
  decoded : Option (List ℚ × Nat)

/-- `get_audio_duration_seconds(file_path)`: `len(audio) / sr` on a
successful decode, `0` when the decode raises (the except branch). -/
def get_audio_duration_seconds (f : UploadedAudioFile) : ℚ :=
  match f.decoded with
  | some (audio, sr) => (audio.length : ℚ) / (sr : ℚ)
  | none => 0

/-- `validate_audio_file(file_path, max_duration_minutes=10)`: returns
`(ok, message)` exactly as the source's four checks do, in order. -/
def validate_audio_file (f : UploadedAudioFile) (max_duration_minutes : Nat := 10) :
    Bool × String :=
  if f.existsOnDisk = false then (false, "File does not exist")
  else if f.fileSize > 100 * 1024 * 1024 then
    (false, "File too large. Maximum size is " ++
      toString (100 * 1024 * 1024 / (1024 * 1024)) ++ "MB")
  else if get_audio_duration_seconds f > (max_duration_minutes : ℚ) * 60 then
    (false, "Audio too long. Maximum duration is " ++
      toString max_duration_minutes ++ " minutes")
  else if get_audio_duration_seconds f < 1 then
    (false, "Audio too short. Minimum duration is 1 second")
  else (true, "Valid")

/-- The validation slice of the `add_voice_sample` endpoint
(backend/main.py 1478-1481): `if not is_valid: raise
HTTPException(status_code=400, detail=error_message)`. -/
def add_voice_sample_validation (f : UploadedAudioFile) : Except (Nat × String) Unit :=
  let r := validate_audio_file f 10
  if r.1 then Except.ok () else Except.error (400, r.2)

/-! ## Model Lifecycle Manager (backend/main.py 81-172)

Global state `tts_model, vc_model, current_device, model_load_time`;
handles are opaque naturals, time is an exact rational. -/

/-- The module-level globals of backend/main.py. -/
structure ModelState where
  tts_model : Option Nat
  vc_model : Option Nat
  current_device : Option String
  model_load_time : Option ℚ
deriving DecidableEq

/-- `load_models(device)` at time `now`, with the two `from_pretrained`
constructors opaque (the fresh handles they would return are parameters);
reloads only `if current_device != device or tts_model is None or vc_model
is None`, refreshing `model_load_time` exactly then.  The happy path returns
`True`. -/
def load_models (s : ModelState) (device : String) (now : ℚ)
    (freshTts freshVc : Nat) : ModelState × Bool :=
  if s.current_device ≠ some device ∨ s.tts_model = none ∨ s.vc_model = none then
    ({ tts_model := some freshTts, vc_model := some freshVc,
       current_device := some device, model_load_time := some now }, true)
  else (s, true)

/-- `unload_models()`: clears the two model handles and `model_load_time`
(`current_device` is left as is by the source). -/
def unload_models (s : ModelState) : ModelState :=
  { s with tts_model := none, vc_model := none, model_load_time := none }

/-- `ensure_vc_model_loaded(device)`: `if vc_model is None: load_models(device)`,
then `return vc_model`.  A call that finds the model loaded touches no
global. -/
def ensure_vc_model_loaded (s : ModelState) (device : String) (now : ℚ)
    (freshTts freshVc : Nat) : ModelState × Option Nat :=
  match s.vc_model with
  | some h => (s, some h)
  | none =>
      let r := load_models s device now freshTts freshVc
      (r.1, r.1.vc_model)

/-- The body of `unload_after_delay` (backend/main.py 163-168) at the moment
the armed timer fires, time `now`: `if model_load_time and (time.time() -
model_load_time) >= (delay_minutes * 60): unload_models()`. -/
def unload_after_delay_fire (delay_minutes : ℚ) (now : ℚ) (s : ModelState) : ModelState :=
  match s.model_load_time with
  | some t => if now - t ≥ delay_minutes * 60 then unload_models s else s
  | none => s

/-! ## Interleaving model of concurrent `ensure_vc_model_loaded` calls

`load_models` guards its load with a plain `if` on module globals and takes
no lock, so the guard evaluation and the model construction of two threads
may interleave (FastAPI runs `def` endpoints on a threadpool, and
`from_pretrained` is long-running).  Each thread's call is broken at the
points where it reads or writes the globals; every step is one atomic
read-or-write, which is finer than what the GIL guarantees, so every trace
of this machine is a genuine interleaving of the code. -/

/-- Program counter of one `ensure_vc_model_loaded` call:
`checkEnsure` = the `if vc_model is None` test in ensure;
`checkGuard` = the reload condition test inside `load_models`;
`doLoad` = the two `from_pretrained` calls plus the global assignments;
`retRead` = the final `return vc_model` read;
`finished` = call returned. -/
inductive EnsurePC where
  | checkEnsure
  | checkGuard
  | doLoad
  | retRead
  | finished
deriving DecidableEq

/-- Shared globals for the interleaving machine, plus a ghost counter of how
many load operations (pairs of `from_pretrained` calls) have executed.
The `k`-th load constructs fresh handles `2*k + 10` (tts) and `2*k + 11`
(vc). -/
structure GlobalSt where
  tts_model : Option Nat
  vc_model : Option Nat
  current_device : Option String
  load_count : Nat
deriving DecidableEq

/-- One `ensure_vc_model_loaded` caller: its program counter and the handle
value its `return vc_model` produced. -/
structure EnsureThread where
  pc : EnsurePC
  result : Option Nat
deriving DecidableEq

/-- One atomic step of one caller against the shared globals. -/
def stepThread (device : String) (g : GlobalSt) (t : EnsureThread) :
    GlobalSt × EnsureThread :=
  match t.pc with
  | EnsurePC.checkEnsure =>
      (g, { t with pc := if g.vc_model = none then EnsurePC.checkGuard
                         else EnsurePC.retRead })
  | EnsurePC.checkGuard =>
      (g, { t with pc :=
        if g.current_device ≠ some device ∨ g.tts_model = none ∨ g.vc_model = none
        then EnsurePC.doLoad else EnsurePC.retRead })
  | EnsurePC.doLoad =>
      ({ tts_model := some (2 * g.load_count + 10),
         vc_model := some (2 * g.load_count + 11),
         current_device := some device,
         load_count := g.load_count + 1 },
       { t with pc := EnsurePC.retRead })
  | EnsurePC.retRead =>
      (g, { pc := EnsurePC.finished, result := g.vc_model })
  | EnsurePC.finished => (g, t)

/-- Two concurrent callers sharing the globals. -/
structure TwoEnsureSys where
  g : GlobalSt
  t0 : EnsureThread
  t1 : EnsureThread
deriving DecidableEq

/-- Run one step of the scheduled thread (`false` = thread 0). -/
def stepSys (device : String) (sys : TwoEnsureSys) (who : Bool) : TwoEnsureSys :=
  if who then
    let r := stepThread device sys.g sys.t1
    ⟨r.1, sys.t0, r.2⟩
  else
    let r := stepThread device sys.g sys.t0
    ⟨r.1, r.2, sys.t1⟩

/-- Run a whole schedule. -/
def runSched (device : String) (sched : List Bool) (sys : TwoEnsureSys) : TwoEnsureSys :=
  sched.foldl (stepSys device) sys

/-- Both callers poised at their first instruction over unloaded globals. -/
def initTwoEnsureSys : TwoEnsureSys :=
  ⟨⟨none, none, none, 0⟩, ⟨EnsurePC.checkEnsure, none⟩, ⟨EnsurePC.checkEnsure, none⟩⟩

/-- Concrete lifecycle trace: state right after `load_models("cpu")` at time 0
produced handles 1 (tts) and 2 (vc). -/
def c5LoadedState : ModelState :=
  (load_models ⟨none, none, none, none⟩ "cpu" 0 1 2).1

/-- Concrete lifecycle trace, continued: `ensure_vc_model_loaded("cpu")`
called at time 250 — inside the 5-minute (300 s) idle window armed at
time 0. -/
def c5AfterEnsure : ModelState × Option Nat :=
  ensure_vc_model_loaded c5LoadedState "cpu" 250 3 4

/-- A racy schedule for two concurrent ensure calls: both evaluate the
ensure test and the load guard before either runs the load body. -/
def c6RacySched : List Bool := [false, true, false, true, false, false, true, true]

/-- Run a single caller `n` steps with no interleaving. -/
def runThread (device : String) : Nat → GlobalSt × EnsureThread → GlobalSt × EnsureThread
  | 0, p => p
  | n + 1, p => runThread device n (stepThread device p.1 p.2)

/-- `n` ensure calls, each run to completion (4 steps always suffice; steps
on a finished thread are no-ops) before the next begins; returns the final
globals and each call's returned handle, in call order. -/
def runSerialEnsures (device : String) (g : GlobalSt) : Nat → GlobalSt × List (Option Nat)
  | 0 => (g, [])
  | n + 1 =>
      let r1 := runThread device 4 (g, ⟨EnsurePC.checkEnsure, none⟩)
      let rest := runSerialEnsures device r1.1 n
      (rest.1, r1.2.result :: rest.2)

theorem splitSamples_nil (c : Nat) : splitSamples c [] = [] := by
  cases c <;> simp [splitSamples]

theorem splitSamples_eq_nil_iff (c : Nat) (hc : c ≠ 0) (l : List ℚ) :
    splitSamples c l = [] ↔ l = [] := by
  cases c with
  | zero => exact absurd rfl hc
  | succ c => cases l <;> simp [splitSamples]

theorem splitSamples_flatten (c : Nat) (l : List ℚ) (hc : c ≠ 0) :
    (splitSamples c l).flatten = l := by
  induction c, l using splitSamples.induct with
  | case1 c => simp [splitSamples_nil]
  | case2 l => exact absurd rfl hc
  | case3 c x xs ih =>
    simp only [splitSamples, List.flatten_cons]
    rw [ih (Nat.succ_ne_zero c)]
    simp [List.take_append_drop]

theorem splitSamples_mem_length (c : Nat) (l : List ℚ) (ch : List ℚ)
    (hm : ch ∈ splitSamples c l) : ch ≠ [] ∧ ch.length ≤ c := by
  induction c, l using splitSamples.induct with
  | case1 c => simp [splitSamples_nil] at hm
  | case2 l => simp [splitSamples] at hm
  | case3 c x xs ih =>
    simp only [splitSamples, List.mem_cons] at hm
    rcases hm with h | h
    · subst h
      refine ⟨by simp, ?_⟩
      simp only [List.length_cons, List.length_take]
      omega
    · exact ih h

theorem splitSamples_dropLast_length (c : Nat) (l : List ℚ) (ch : List ℚ)
    (hm : ch ∈ (splitSamples c l).dropLast) : ch.length = c := by
  induction c, l using splitSamples.induct with
  | case1 c => simp [splitSamples_nil] at hm
  | case2 l => simp [splitSamples] at hm
  | case3 c x xs ih =>
    simp only [splitSamples] at hm
    by_cases hrest : splitSamples (c + 1) (xs.drop c) = []
    · rw [hrest] at hm
      simp at hm
    · rw [List.dropLast_cons_of_ne_nil hrest, List.mem_cons] at hm
      rcases hm with h | h
      · subst h
        have hlen : c ≤ xs.length := by
          by_contra hlt
          push_neg at hlt
          exact hrest (by simp [List.drop_eq_nil_of_le (Nat.le_of_lt hlt), splitSamples_nil])
        simp only [List.length_cons, List.length_take]
        omega
      · exact ih h

/-- C1: for every decoded audio signal and every chunk duration > 0 (and
positive sample rate), concatenating the chunks of
`split_audio_into_chunks` in index order yields exactly the input samples;
every chunk but possibly the last has exactly
`chunk_duration_seconds * sample_rate` samples, every chunk (the last
included) is non-empty and no longer than that, and an empty input yields
an empty chunk list. -/
theorem C1_split_roundtrip (audio : List ℚ) (chunk_duration_seconds sample_rate : Nat)
    (hd : 0 < chunk_duration_seconds) (hsr : 0 < sample_rate) :
    (split_audio_into_chunks (some audio) chunk_duration_seconds sample_rate).1.flatten = audio
    ∧ (∀ ch ∈ (split_audio_into_chunks (some audio) chunk_duration_seconds sample_rate).1.dropLast,
        ch.length = chunk_duration_seconds * sample_rate)
    ∧ (∀ ch ∈ (split_audio_into_chunks (some audio) chunk_duration_seconds sample_rate).1,
        ch ≠ [] ∧ ch.length ≤ chunk_duration_seconds * sample_rate)
    ∧ (audio = [] →
        (split_audio_into_chunks (some audio) chunk_duration_seconds sample_rate).1 = []) := by
  have hc : chunk_duration_seconds * sample_rate ≠ 0 :=
    Nat.mul_ne_zero (by omega) (by omega)
  simp only [split_audio_into_chunks]
  refine ⟨splitSamples_flatten _ _ hc, ?_, ?_, ?_⟩
  · intro ch hm
    exact splitSamples_dropLast_length _ _ _ hm
  · intro ch hm
    exact splitSamples_mem_length _ _ _ hm
  · intro h
    subst h
    exact splitSamples_nil _

/-- Witness for C1 at the concrete signal [1, 2, 3], 1-second chunks,
2 Hz. -/
theorem C1_split_roundtrip_witness :
    (split_audio_into_chunks (some [1, 2, 3]) 1 2).1.flatten = [1, 2, 3] :=
  (C1_split_roundtrip [1, 2, 3] 1 2 (by decide) (by decide)).1

/-- C2: whenever the voice-conversion invocation for a chunk fails, the
outcome substituted at that chunk's position is exactly the all-zero list of
the input chunk's length paired with the unchanged sample rate. -/
theorem C2_silence_substitution (vcGenerate : Nat → List ℚ → Option (List ℚ))
    (pitchShiftFn : Nat → ℚ → List ℚ → Option (List ℚ))
    (timeStretchFn : ℚ → List ℚ → Option (List ℚ))
    (sample_rate : Nat) (pitch_shift speed_factor volume_factor : ℚ)
    (i : Nat) (chunk : List ℚ)
    (hfail : vcGenerate i chunk = none) :
    convert_chunk vcGenerate pitchShiftFn timeStretchFn sample_rate
        pitch_shift speed_factor volume_factor i chunk
      = (List.replicate chunk.length 0, sample_rate)
    ∧ (List.replicate chunk.length (0 : ℚ)).length = chunk.length
    ∧ (∀ x ∈ List.replicate chunk.length (0 : ℚ), x = 0) := by
  refine ⟨by simp [convert_chunk, hfail], by simp, ?_⟩
  intro x hx
  exact List.eq_of_mem_replicate hx

/-- Witness for C2: a failing invocation on the two-sample chunk [5, 7]. -/
theorem C2_silence_substitution_witness :
    convert_chunk (fun _ _ => none) (fun _ _ l => some l) (fun _ l => some l)
        16000 0 1 1 0 [5, 7]
      = (List.replicate (List.length [(5 : ℚ), 7]) 0, 16000) :=
  (C2_silence_substitution (fun _ _ => none) (fun _ _ l => some l) (fun _ l => some l)
    16000 0 1 1 0 [5, 7] rfl).1

/-- C3: the reconciliation step of `video_voice_conversion` always produces
an audio clip whose duration equals the video's duration: truncation when
the converted track is longer, silence padding when shorter, identity when
equal. -/
theorem C3_reconcile_duration (video_duration : ℚ) (converted : AudioClip) :
    (reconcile_audio_to_video video_duration converted).duration = video_duration := by
  unfold reconcile_audio_to_video
  split_ifs with h1 h2
  · simp [AudioClip.subclipped]
  · simp [concatenate_audioclips, silenceClip, AudioClip.duration]
  · exact le_antisymm (not_lt.mp h1) (not_lt.mp h2)

/-- Counterexample to C4 as stated: with `volume_factor = 1.0` the volume
stage — and with it the clip — is skipped entirely, so an input sample of 2
passes through `apply_audio_effects` unchanged and the output leaves
[-1, 1]. -/
theorem C4_counterexample :
    apply_audio_effects (fun _ _ l => some l) (fun _ l => some l) [2] 16000 0 1 1 = [2]
    ∧ ¬ ((2 : ℚ) ≤ 1) := by
  constructor
  · simp [apply_audio_effects]
  · norm_num

/-- C4 (amended): whenever `volume_factor ≠ 1.0` and the enabled librosa
stages do not raise, every sample of `apply_audio_effects`' output lies
within [-1, 1]; when a stage does raise, the source's `except` branch
returns the signal as processed so far unmodified — and so unclipped (shown
here for the pitch stage), so the bound is guaranteed only on the
non-raising path. -/
theorem C4_clip_bound (pitchShiftFn : Nat → ℚ → List ℚ → Option (List ℚ))
    (timeStretchFn : ℚ → List ℚ → Option (List ℚ))
    (audio_array : List ℚ) (sample_rate : Nat)
    (pitch_shift speed_factor volume_factor : ℚ)
    (hv : volume_factor ≠ 1) :
    ((∀ a, (pitchShiftFn sample_rate pitch_shift a).isSome = true) →
      (∀ a, (timeStretchFn speed_factor a).isSome = true) →
      ∀ x ∈ apply_audio_effects pitchShiftFn timeStretchFn audio_array sample_rate
          pitch_shift speed_factor volume_factor, -1 ≤ x ∧ x ≤ 1)
    ∧ (pitch_shift ≠ 0 → pitchShiftFn sample_rate pitch_shift audio_array = none →
        apply_audio_effects pitchShiftFn timeStretchFn audio_array sample_rate
          pitch_shift speed_factor volume_factor = audio_array) := by
  constructor
  · intro hp hs x hx
    obtain ⟨a1, ha1⟩ : ∃ a1,
        (if pitch_shift ≠ 0 then pitchShiftFn sample_rate pitch_shift audio_array
         else some audio_array) = some a1 := by
      by_cases h : pitch_shift ≠ 0
      · rw [if_pos h]
        exact Option.isSome_iff_exists.mp (hp audio_array)
      · exact ⟨audio_array, if_neg h⟩
    obtain ⟨a2, ha2⟩ : ∃ a2,
        (if speed_factor ≠ 1 then timeStretchFn speed_factor a1 else some a1) = some a2 := by
      by_cases h : speed_factor ≠ 1
      · rw [if_pos h]
        exact Option.isSome_iff_exists.mp (hs a1)
      · exact ⟨a1, if_neg h⟩
    simp only [apply_audio_effects, ha1, ha2, if_pos hv, List.mem_map] at hx
    obtain ⟨y, _, rfl⟩ := hx
    exact ⟨le_min (le_max_right y (-1)) (by norm_num), min_le_right _ _⟩
  · intro hps hnone
    simp only [apply_audio_effects, if_pos hps, hnone]

/-- Witness for C4 (amended): with never-raising stages, volume factor 2 on
the one-sample signal [5] produces the clipped sample 1, which the theorem
bounds. -/
theorem C4_clip_bound_witness :
    (1 : ℚ) ∈ apply_audio_effects (fun _ _ l => some l) (fun _ l => some l) [5] 16000 0 1 2
    ∧ (-1 ≤ (1 : ℚ) ∧ (1 : ℚ) ≤ 1) := by
  have hm : (1 : ℚ) ∈ apply_audio_effects (fun _ _ l => some l) (fun _ l => some l)
      [5] 16000 0 1 2 := by
    norm_num [apply_audio_effects, npClip]
  exact ⟨hm, (C4_clip_bound (fun _ _ l => some l) (fun _ l => some l) [5] 16000 0 1 2
    (by norm_num)).1 (fun _ => rfl) (fun _ => rfl) 1 hm⟩

/-- C7: at the no-op parameter values (pitch shift 0, speed 1.0, volume 1.0)
every stage of `apply_audio_effects` is skipped and the input signal is
returned bit-identical, whatever the two librosa stages would do. -/
theorem C7_effects_noop (pitchShiftFn : Nat → ℚ → List ℚ → Option (List ℚ))
    (timeStretchFn : ℚ → List ℚ → Option (List ℚ))
    (audio_array : List ℚ) (sample_rate : Nat) :
    apply_audio_effects pitchShiftFn timeStretchFn audio_array sample_rate 0 1 1
      = audio_array := by
  simp [apply_audio_effects]

theorem mapIdx_silence_flatten (g : Nat → List ℚ → List ℚ)
    (hg : ∀ i c, g i c = List.replicate c.length 0) :
    ∀ chunks : List (List ℚ),
      (chunks.mapIdx g).flatten
        = List.replicate ((chunks.map List.length).sum) (0 : ℚ) := by
  intro chunks
  induction chunks generalizing g with
  | nil => simp
  | cons c cs ih =>
    rw [List.mapIdx_cons, List.flatten_cons, hg 0 c,
      ih (fun i ch => g (i + 1) ch) (fun i ch => hg (i + 1) ch),
      List.map_cons, List.sum_cons, List.replicate_add]

/-- C8: for every non-empty chunk list, `process_audio_chunks` returns a
combined signal (never the `None` sentinel) no matter which chunk
conversions fail; when every conversion fails it returns the all-silence
signal whose length is the chunks' combined length. -/
theorem C8_combine_total (vcGenerate : Nat → List ℚ → Option (List ℚ))
    (pitchShiftFn : Nat → ℚ → List ℚ → Option (List ℚ))
    (timeStretchFn : ℚ → List ℚ → Option (List ℚ))
    (chunks : List (List ℚ)) (sample_rate : Nat)
    (pitch_shift speed_factor volume_factor : ℚ)
    (hne : chunks ≠ []) :
    process_audio_chunks vcGenerate pitchShiftFn timeStretchFn chunks sample_rate
        pitch_shift speed_factor volume_factor ≠ none
    ∧ ((∀ i c, vcGenerate i c = none) →
        process_audio_chunks vcGenerate pitchShiftFn timeStretchFn chunks sample_rate
            pitch_shift speed_factor volume_factor
          = some (List.replicate ((chunks.map List.length).sum) 0)) := by
  constructor
  · cases chunks with
    | nil => exact absurd rfl hne
    | cons c cs => simp [process_audio_chunks]
  · intro hall
    have hg : ∀ i c, (convert_chunk vcGenerate pitchShiftFn timeStretchFn sample_rate
        pitch_shift speed_factor volume_factor i c).1 = List.replicate c.length 0 := by
      intro i c
      simp [convert_chunk, hall i c]
    have hmap := mapIdx_silence_flatten _ hg chunks
    cases chunks with
    | nil => exact absurd rfl hne
    | cons c cs =>
      simp only [List.mapIdx_cons] at hmap
      simp only [process_audio_chunks, List.mapIdx_cons, List.isEmpty_cons, if_false,
        Bool.false_eq_true]
      exact congrArg some hmap

/-- Witness for C8: two chunks, every conversion failing, combine to three
samples of silence. -/
theorem C8_combine_total_witness :
    process_audio_chunks (fun _ _ => none) (fun _ _ l => some l) (fun _ l => some l)
        [[1], [2, 3]] 16000 0 1 1
      = some (List.replicate (([[(1 : ℚ)], [2, 3]].map List.length).sum) 0) :=
  (C8_combine_total (fun _ _ => none) (fun _ _ l => some l) (fun _ l => some l)
    [[1], [2, 3]] 16000 0 1 1 (by simp)).2 (fun _ _ => rfl)

/-- Counterexample to C9 as stated: on an undecodable input
`split_audio_into_chunks` raises nothing and returns the plain value
`([], sample_rate)` — the very value a successfully decoded empty signal
also produces — so no `DecodeError` (no error of any kind) is propagated to
the caller, and the decode failure is indistinguishable from legitimate
empty input in the function's result. -/
theorem C9_counterexample :
    split_audio_into_chunks none 60 16000 = ([], 16000)
    ∧ split_audio_into_chunks none 60 16000 = split_audio_into_chunks (some []) 60 16000 := by
  constructor
  · rfl
  · simp [split_audio_into_chunks, splitSamples_nil]

/-- C9 (amended): on an undecodable input `split_audio_into_chunks` catches
the decode error and returns the sentinel `([], sample_rate)`; the
conversion endpoint detects the empty chunk list and raises the explicit
job-level failure `HTTPException(500, "Failed to split audio into chunks")`
— the failure surfaces at the caller, not as a `DecodeError` from the split
itself. -/
theorem C9_decode_failure_sentinel (chunk_duration sample_rate : Nat) :
    split_audio_into_chunks none chunk_duration sample_rate = ([], sample_rate)
    ∧ video_conversion_split_step none chunk_duration
        = Except.error (500, "Failed to split audio into chunks") := by
  exact ⟨rfl, rfl⟩

/-- C10: `validate_audio_file` accepts exactly the files that exist, are at
most 100·1024·1024 bytes, and whose decoded duration lies in [1, 600]
seconds; a file whose decode fails gets duration 0 and is rejected; and the
`add_voice_sample` endpoint turns any rejection into an HTTP 400 carrying
the validation message. -/
theorem C10_upload_validation (f : UploadedAudioFile) :
    ((validate_audio_file f 10).1 = true ↔
      (f.existsOnDisk = true ∧ f.fileSize ≤ 100 * 1024 * 1024
        ∧ 1 ≤ get_audio_duration_seconds f ∧ get_audio_duration_seconds f ≤ 600))
    ∧ (f.decoded = none →
        get_audio_duration_seconds f = 0 ∧ (validate_audio_file f 10).1 = false)
    ∧ ((validate_audio_file f 10).1 = false →
        add_voice_sample_validation f
          = Except.error (400, (validate_audio_file f 10).2)) := by
  have hb : ((10 : Nat) : ℚ) * 60 = 600 := by norm_num
  refine ⟨?_, ?_, ?_⟩
  · unfold validate_audio_file
    rw [hb]
    split_ifs with h1 h2 h3 h4
    · simp [h1]
    · simp only [Bool.false_eq_true, false_iff, not_and]
      intro _ hsize
      omega
    · simp only [Bool.false_eq_true, false_iff, not_and]
      intro _ _ _
      intro hle
      exact absurd h3 (not_lt.mpr hle)
    · simp only [Bool.false_eq_true, false_iff, not_and]
      intro _ _ hge _
      exact absurd h4 (not_lt.mpr hge)
    · simp only [true_iff]
      refine ⟨by simpa using h1, by omega, by linarith [not_lt.mp h4], not_lt.mp h3⟩
  · intro hd
    have hdur : get_audio_duration_seconds f = 0 := by
      simp [get_audio_duration_seconds, hd]
    refine ⟨hdur, ?_⟩
    unfold validate_audio_file
    split_ifs with h1 h2 h3 h4
    · rfl
    · rfl
    · rfl
    · rfl
    · rw [hdur] at h4
      norm_num at h4
  · intro hfalse
    simp [add_voice_sample_validation, hfalse]

/-- Witness for C10: an existing zero-byte file whose decode fails is
rejected and surfaces as an HTTP 400. -/
theorem C10_upload_validation_witness :
    get_audio_duration_seconds ⟨true, 0, none⟩ = 0
    ∧ (validate_audio_file ⟨true, 0, none⟩ 10).1 = false
    ∧ add_voice_sample_validation ⟨true, 0, none⟩
        = Except.error (400, (validate_audio_file ⟨true, 0, none⟩ 10).2) := by
  have h := C10_upload_validation ⟨true, 0, none⟩
  exact ⟨(h.2.1 rfl).1, (h.2.1 rfl).2, h.2.2 (h.2.1 rfl).2⟩

/-- Counterexample to C5 as stated: models loaded at time 0 arm the
5-minute (300 s) timer; `ensure_vc_model_loaded` at time 250 — well inside
the delay window — returns the existing handle but refreshes no timestamp
(it leaves the state untouched), so when the timer fires at time 300 the
idleness test `time.time() - model_load_time >= delay` still passes and the
models the Ensure call just handed out are unloaded. -/
theorem C5_counterexample :
    c5AfterEnsure.1 = c5LoadedState
    ∧ c5AfterEnsure.2 = some 2
    ∧ c5LoadedState.model_load_time = some 0
    ∧ (unload_after_delay_fire 5 300 c5AfterEnsure.1).vc_model = none
    ∧ (unload_after_delay_fire 5 300 c5AfterEnsure.1).tts_model = none := by
  have hs : c5LoadedState = ⟨some 1, some 2, some "cpu", some 0⟩ := by
    simp [c5LoadedState, load_models]
  have he : c5AfterEnsure = (c5LoadedState, some 2) := by
    simp [c5AfterEnsure, hs, ensure_vc_model_loaded]
  have hfire : unload_after_delay_fire 5 300 c5AfterEnsure.1 = unload_models c5LoadedState := by
    rw [he, hs]
    simp only [unload_after_delay_fire]
    norm_num
  refine ⟨by rw [he], by rw [he], by rw [hs], ?_, ?_⟩ <;>
    simp [hfire, unload_models]

/-- C5 (amended): the timer's firing body unloads iff `model_load_time` is
set and at least `delay_minutes * 60` seconds old — only a (re)load
refreshes that timestamp; an `ensure_vc_model_loaded` call that finds the
model loaded returns the existing handle without touching any global, so it
never prevents the timer from unloading. -/
theorem C5_idle_unload (s : ModelState) (device : String) (now : ℚ)
    (freshTts freshVc h : Nat) (t fire delay : ℚ)
    (hvc : s.vc_model = some h) (ht : s.model_load_time = some t) :
    ensure_vc_model_loaded s device now freshTts freshVc = (s, some h)
    ∧ (fire - t < delay * 60 → unload_after_delay_fire delay fire s = s)
    ∧ (delay * 60 ≤ fire - t → unload_after_delay_fire delay fire s = unload_models s) := by
  refine ⟨?_, ?_, ?_⟩
  · simp [ensure_vc_model_loaded, hvc]
  · intro hlt
    simp [unload_after_delay_fire, ht, not_le.mpr hlt]
  · intro hge
    simp [unload_after_delay_fire, ht, hge]

/-- Witness for C5 (amended): a state loaded at time 0; an Ensure at time
250 returns handle 2 and changes nothing, and a firing at time 100 (before
the 300 s delay has elapsed since the load) unloads nothing. -/
theorem C5_idle_unload_witness :
    ensure_vc_model_loaded ⟨some 1, some 2, some "cpu", some 0⟩ "cpu" 250 3 4
      = (⟨some 1, some 2, some "cpu", some 0⟩, some 2)
    ∧ unload_after_delay_fire 5 100 ⟨some 1, some 2, some "cpu", some 0⟩
      = ⟨some 1, some 2, some "cpu", some 0⟩ := by
  have h := C5_idle_unload ⟨some 1, some 2, some "cpu", some 0⟩ "cpu" 250 3 4 2 0 100 5 rfl rfl
  exact ⟨h.1, h.2.1 (by norm_num)⟩

/-- Counterexample to C6 as stated: `load_models` takes no lock, so two
concurrent `ensure_vc_model_loaded("cpu")` calls starting from the unloaded
state can both pass the `vc_model is None` test and both pass the reload
guard before either runs the load body; under that schedule two load
operations execute (two `from_pretrained` pairs) and the two calls return
different handles. -/
theorem C6_counterexample :
    (runSched "cpu" c6RacySched initTwoEnsureSys).g.load_count = 2
    ∧ (runSched "cpu" c6RacySched initTwoEnsureSys).t0.pc = EnsurePC.finished
    ∧ (runSched "cpu" c6RacySched initTwoEnsureSys).t1.pc = EnsurePC.finished
    ∧ (runSched "cpu" c6RacySched initTwoEnsureSys).t0.result = some 11
    ∧ (runSched "cpu" c6RacySched initTwoEnsureSys).t1.result = some 13
    ∧ (runSched "cpu" c6RacySched initTwoEnsureSys).t0.result
        ≠ (runSched "cpu" c6RacySched initTwoEnsureSys).t1.result := by
  decide

theorem runThread_loaded (device : String) (g : GlobalSt) (h : Nat)
    (hvc : g.vc_model = some h) :
    runThread device 4 (g, ⟨EnsurePC.checkEnsure, none⟩)
      = (g, ⟨EnsurePC.finished, some h⟩) := by
  simp [runThread, stepThread, hvc]

theorem runThread_unloaded (device : String) (g : GlobalSt) (hvc : g.vc_model = none) :
    runThread device 4 (g, ⟨EnsurePC.checkEnsure, none⟩)
      = (⟨some (2 * g.load_count + 10), some (2 * g.load_count + 11),
          some device, g.load_count + 1⟩,
         ⟨EnsurePC.finished, some (2 * g.load_count + 11)⟩) := by
  simp [runThread, stepThread, hvc]

theorem runSerialEnsures_loaded (device : String) (h : Nat) :
    ∀ (n : Nat) (g : GlobalSt), g.vc_model = some h →
      runSerialEnsures device g n = (g, List.replicate n (some h)) := by
  intro n
  induction n with
  | zero =>
    intro g hvc
    simp [runSerialEnsures]
  | succ m ih =>
    intro g hvc
    simp [runSerialEnsures, runThread_loaded device g h hvc, ih g hvc,
      List.replicate_succ]

/-- C6 (amended): the code contains no mutual-exclusion guard, so
interleaved Ensure calls can each execute a load (see the counterexample);
what does hold is the serialized version: when N `ensure_vc_model_loaded`
calls on the same device each run to completion before the next begins,
starting from an unloaded state, exactly one load operation executes and
every call returns the same loaded handle. -/
theorem C6_serial_single_load (device : String) (g : GlobalSt) (n : Nat)
    (hvc : g.vc_model = none) (hn : 0 < n) :
    (runSerialEnsures device g n).1.load_count = g.load_count + 1
    ∧ (runSerialEnsures device g n).2
        = List.replicate n (some (2 * g.load_count + 11)) := by
  cases n with
  | zero => exact absurd hn (by norm_num)
  | succ m =>
    simp only [runSerialEnsures, runThread_unloaded device g hvc]
    rw [runSerialEnsures_loaded device (2 * g.load_count + 11) m
      ⟨some (2 * g.load_count + 10), some (2 * g.load_count + 11),
        some device, g.load_count + 1⟩ rfl]
    exact ⟨rfl, rfl⟩

/-- Witness for C6 (amended): three serial ensure calls from the pristine
unloaded state perform one load and all return handle 11. -/
theorem C6_serial_single_load_witness :
    (runSerialEnsures "cpu" ⟨none, none, none, 0⟩ 3).1.load_count = 0 + 1
    ∧ (runSerialEnsures "cpu" ⟨none, none, none, 0⟩ 3).2
        = List.replicate 3 (some (2 * 0 + 11)) :=
  C6_serial_single_load "cpu" ⟨none, none, none, 0⟩ 3 rfl (by norm_num)

end ClaraVoice
